import Mathlib

/-!
Verification development for the Bee-Pharma POS repository.

The repository contains two divergent database schemas:
* `src/unnamed/part_003` ("B-Pharma POS Initial Schema"): tables
  `product_batches`, `sales`, `sale_items` (batch-referencing), the triggers
  `update_stock_from_sale`, the function `update_stock_from_purchase`, and
  the signup trigger `handle_new_user`.
* `src/supabase/migrations/20250101000000_initial_schema.sql`: tables
  `batches` (with CHECK quantity >= 0), `inventory_movements`,
  `sale_items` with a GENERATED total column, `sales` with
  subtotal/discount/tax/total columns.

Below, each definition is a shallow embedding of the corresponding SQL or
TypeScript source.  Monetary NUMERIC values are embedded as `ℚ` (exact
decimal arithmetic); integer columns as `Int`; identities as `Nat`.
-/

namespace BeePharma

/-- The `user_role` enum from part_003 (`Super Admin`, `Stock Manager`,
`Cashier`). -/
inductive UserRole
  | SuperAdmin
  | StockManager
  | Cashier
deriving DecidableEq, Fintype

/-- A row of `public.product_batches` (part_003 lines 97-107).  The
`quantity` column is `INT NOT NULL DEFAULT 0` with NO check constraint, so
it is embedded as an unrestricted `Int`. -/
structure ProductBatch where
  id : Nat
  product_id : Nat
  cost_price : ℚ
  selling_price : ℚ
  quantity : Int
deriving DecidableEq

/-- A row of `public.sales` (part_003 lines 142-148). -/
structure SaleRow where
  id : Nat
  cashier_id : Nat
  total_amount : ℚ
deriving DecidableEq

/-- A row of `public.sale_items` (part_003 lines 151-157): references a
specific product batch; carries quantity and unit price (no discount column
in this schema variant). -/
structure SaleItemRow where
  sale_id : Nat
  product_batch_id : Nat
  quantity : Int
  unit_price : ℚ
deriving DecidableEq

/-- The `change_type` values of `public.inventory_movements`
(initial_schema.sql line 109): 'sale', 'purchase', 'adjustment', 'return',
'damage'.  The 'return' cause is named `ret` because `return` is a Lean
keyword. -/
inductive MovementCause
  | sale
  | purchase
  | adjustment
  | ret
  | damage
deriving DecidableEq

/-- A row of `public.inventory_movements` (initial_schema.sql lines
106-114), the stock-change ledger ("History of all stock changes").  This
is the only inventory-movement table anywhere in the repository; part_003
defines none. -/
structure InventoryMovement where
  product_id : Nat
  change_type : MovementCause
  quantity : Int
deriving DecidableEq

/-- A row of `public.purchase_order_items` (part_003 lines 122-130). -/
structure PurchaseOrderItem where
  id : Nat
  purchase_order_id : Nat
  product_id : Nat
  quantity : Int
  unit_cost : ℚ
deriving DecidableEq

/-- The mutable database state touched by the stock-handling code:
batches, sales, sale items and purchase-order items from part_003,
together with the repository's single inventory-movement ledger table
(initial_schema.sql).  `next_batch_id` models the IDENTITY sequence of
`product_batches`. -/
structure DB where
  product_batches : List ProductBatch
  sales : List SaleRow
  sale_items : List SaleItemRow
  purchase_order_items : List PurchaseOrderItem
  inventory_movements : List InventoryMovement
  next_batch_id : Nat
deriving DecidableEq

/-- The trigger function `update_stock_from_sale` (part_003 lines 220-230):
`UPDATE public.product_batches SET quantity = quantity - NEW.quantity WHERE
id = NEW.product_batch_id`.  It performs no sufficiency check, raises no
error, and writes no inventory movement. -/
def update_stock_from_sale (new : SaleItemRow) (batches : List ProductBatch) :
    List ProductBatch :=
  batches.map fun b =>
    if b.id = new.product_batch_id then
      { b with quantity := b.quantity - new.quantity }
    else b

/-- Inserting one row into `public.sale_items`: the row is stored and the
AFTER INSERT trigger `after_sale_item_insert` (part_003 lines 233-235)
fires `update_stock_from_sale` for it. -/
def insert_sale_item (db : DB) (row : SaleItemRow) : DB :=
  { db with
    sale_items := db.sale_items ++ [row]
    product_batches := update_stock_from_sale row db.product_batches }

/-- Settling a proposed sale against the part_003 schema: the sale row is
inserted into `public.sales`, then each line is inserted into
`public.sale_items`, each insert firing the stock trigger.  This is the
entire sale-settlement machinery present in the repository: no function or
constraint checks stock sufficiency or writes a movement row. -/
def settleSale (db : DB) (sale : SaleRow) (rows : List SaleItemRow) : DB :=
  rows.foldl insert_sale_item { db with sales := db.sales ++ [sale] }

/-- The stored quantity of the batch with the given id, if present. -/
def batchQuantity (db : DB) (batchId : Nat) : Option Int :=
  (db.product_batches.find? fun b => b.id == batchId).map fun b => b.quantity

/-- Total on-hand stock for a product: the sum of the quantities of its
batches. -/
def productStock (db : DB) (productId : Nat) : Int :=
  ((db.product_batches.filter fun b => b.product_id == productId).map
    fun b => b.quantity).sum

/-- The function `update_stock_from_purchase` (part_003 lines 238-252): it
looks up the purchase-order item and inserts a new batch with
`cost_price = item.unit_cost`, `selling_price = item.unit_cost * 1.25`
(the "25% markup" comment in the source) and `quantity = item.quantity`.
It returns `none` when the item id does not exist (the SQL INSERT of NULLs
would fail).  It writes no inventory movement. -/
def update_stock_from_purchase (db : DB) (itemId : Nat) : Option DB :=
  match db.purchase_order_items.find? (fun i => i.id == itemId) with
  | none => none
  | some item =>
      some { db with
        product_batches := db.product_batches ++
          [{ id := db.next_batch_id
             product_id := item.product_id
             cost_price := item.unit_cost
             selling_price := item.unit_cost * (125 / 100)
             quantity := item.quantity }]
        next_batch_id := db.next_batch_id + 1 }

end BeePharma

namespace BeePharma

/-- C1: the spec claims sale settlement is all-or-nothing: on insufficient
batch stock it must fail with an InsufficientStock error, creating no Sale
and no SaleItems and leaving quantities unchanged.  The code has no such
path: evaluating the repository's settlement machinery on a batch holding
quantity 1 and a proposed sale of quantity 2 shows the Sale and the
SaleItem are created and the batch quantity is silently driven to -1. -/
theorem C1_settlement_succeeds_despite_insufficient_stock :
    let db0 : DB :=
      { product_batches :=
          [{ id := 1, product_id := 10, cost_price := 8, selling_price := 10,
             quantity := 1 }]
        sales := []
        sale_items := []
        purchase_order_items := []
        inventory_movements := []
        next_batch_id := 2 }
    let db1 := settleSale db0
      { id := 1, cashier_id := 7, total_amount := 20 }
      [{ sale_id := 1, product_batch_id := 1, quantity := 2, unit_price := 10 }]
    db1.sales.length = 1 ∧ db1.sale_items.length = 1 ∧
      batchQuantity db1 1 = some (-1) := by
  decide

/-- C2: the spec claims batch quantity is >= 0 in every reachable state.
Starting from a batch with quantity 3, a sequence of two sale settlements
of quantity 2 each leaves the stored quantity at -1: `product_batches`
(part_003) has no check constraint and `update_stock_from_sale` decrements
unconditionally. -/
theorem C2_batch_quantity_reaches_negative :
    let db0 : DB :=
      { product_batches :=
          [{ id := 4, product_id := 11, cost_price := 2, selling_price := 3,
             quantity := 3 }]
        sales := []
        sale_items := []
        purchase_order_items := []
        inventory_movements := []
        next_batch_id := 5 }
    let db1 := settleSale db0
      { id := 1, cashier_id := 7, total_amount := 6 }
      [{ sale_id := 1, product_batch_id := 4, quantity := 2, unit_price := 3 }]
    let db2 := settleSale db1
      { id := 2, cashier_id := 7, total_amount := 6 }
      [{ sale_id := 2, product_batch_id := 4, quantity := 2, unit_price := 3 }]
    batchQuantity db2 4 = some (-1) := by
  decide

/-- C3: the spec claims every batch-quantity change is accompanied by
exactly one InventoryMovement row (for a sale: cause 'sale', delta minus
the sold quantity).  Settling a fully-stocked sale of quantity 2 changes
the batch quantity from 5 to 3 yet appends zero inventory-movement rows:
`update_stock_from_sale` never writes to the ledger, and part_003 does not
even define a movements table. -/
theorem C3_stock_change_without_movement_row :
    let db0 : DB :=
      { product_batches :=
          [{ id := 2, product_id := 20, cost_price := 1, selling_price := 2,
             quantity := 5 }]
        sales := []
        sale_items := []
        purchase_order_items := []
        inventory_movements := []
        next_batch_id := 3 }
    let db1 := settleSale db0
      { id := 9, cashier_id := 3, total_amount := 4 }
      [{ sale_id := 9, product_batch_id := 2, quantity := 2, unit_price := 2 }]
    batchQuantity db1 2 = some 3 ∧ db1.inventory_movements.length = 0 := by
  decide

/-- C5 counterexample: the claim states that receiving a purchase-order
line item appends one InventoryMovement with cause 'purchase'.  Receiving
a concrete item succeeds but appends zero movement rows. -/
theorem C5_counterexample_no_purchase_movement :
    let db0 : DB :=
      { product_batches := []
        sales := []
        sale_items := []
        purchase_order_items :=
          [{ id := 1, purchase_order_id := 1, product_id := 10, quantity := 5,
             unit_cost := 4 }]
        inventory_movements := []
        next_batch_id := 1 }
    ((update_stock_from_purchase db0 1).map
        fun db1 => db1.inventory_movements.length) = some 0 ∧
      ¬ ((update_stock_from_purchase db0 1).map
        fun db1 => db1.inventory_movements.length) = some 1 := by
  decide

/-- C5 (amended): receiving a purchase-order line item creates a new batch
whose cost price equals the line's unit cost, whose selling price is the
unit cost marked up by the fixed factor 1.25, and whose quantity equals
the ordered quantity, so the product's total on-hand stock increases by
exactly that quantity; no InventoryMovement is appended. -/
theorem C5_purchase_receipt_amended (db db1 : DB) (itemId : Nat)
    (item : PurchaseOrderItem)
    (hfind : db.purchase_order_items.find? (fun i => i.id == itemId) = some item)
    (h : update_stock_from_purchase db itemId = some db1) :
    db1.product_batches = db.product_batches ++
      [{ id := db.next_batch_id
         product_id := item.product_id
         cost_price := item.unit_cost
         selling_price := item.unit_cost * (125 / 100)
         quantity := item.quantity }] ∧
    productStock db1 item.product_id = productStock db item.product_id + item.quantity ∧
    db1.inventory_movements = db.inventory_movements := by
  unfold update_stock_from_purchase at h
  rw [hfind] at h
  cases h
  refine ⟨rfl, ?_, rfl⟩
  simp [productStock, List.filter_append]

/-- Witness for C5: receiving item 1 (unit cost 4, quantity 5) from an
empty batch table. -/
theorem C5_purchase_receipt_amended_witness :
    let db0 : DB :=
      { product_batches := []
        sales := []
        sale_items := []
        purchase_order_items :=
          [{ id := 1, purchase_order_id := 1, product_id := 10, quantity := 5,
             unit_cost := 4 }]
        inventory_movements := []
        next_batch_id := 1 }
    let db1 : DB :=
      { product_batches :=
          [{ id := 1, product_id := 10, cost_price := 4,
             selling_price := 4 * (125 / 100), quantity := 5 }]
        sales := []
        sale_items := []
        purchase_order_items :=
          [{ id := 1, purchase_order_id := 1, product_id := 10, quantity := 5,
             unit_cost := 4 }]
        inventory_movements := []
        next_batch_id := 2 }
    db1.product_batches = db0.product_batches ++
      [{ id := db0.next_batch_id
         product_id := 10
         cost_price := 4
         selling_price := 4 * (125 / 100)
         quantity := 5 }] ∧
    productStock db1 10 = productStock db0 10 + 5 ∧
    db1.inventory_movements = db0.inventory_movements := by
  exact C5_purchase_receipt_amended _ _ 1
    { id := 1, purchase_order_id := 1, product_id := 10, quantity := 5,
      unit_cost := 4 }
    rfl rfl

end BeePharma

namespace BeePharma

/-- The generating expression of the `total` column of `public.sale_items`
in initial_schema.sql line 167: `GENERATED ALWAYS AS (quantity * price -
discount) STORED`. -/
def sale_item_total (quantity : Int) (price discount : ℚ) : ℚ :=
  quantity * price - discount

/-- A row of `public.sale_items` (initial_schema.sql lines 160-170):
quantity, price, discount and the stored generated `total`. -/
structure SaleItemStored where
  sale_id : Nat
  product_id : Nat
  quantity : Int
  price : ℚ
  discount : ℚ
  total : ℚ
deriving DecidableEq

/-- Inserting a row into `public.sale_items` (initial_schema.sql): the
caller supplies sale id, product id, quantity, price and discount; the
`total` column is GENERATED ALWAYS, computed by the database from those
three values, and cannot be supplied by the caller. -/
def insertSaleItemRow (saleId productId : Nat) (quantity : Int)
    (price discount : ℚ) : SaleItemStored :=
  { sale_id := saleId
    product_id := productId
    quantity := quantity
    price := price
    discount := discount
    total := sale_item_total quantity price discount }

/-- C8: a persisted sale item's `total` is a pure function of its
quantity, price and discount, equal to quantity × price − discount; the
identifying fields do not influence it, and insertion offers no way to
set it independently (the generated column is computed, never supplied). -/
theorem C8_sale_item_total_pure (s1 p1 s2 p2 : Nat) (q : Int) (pr d : ℚ) :
    (insertSaleItemRow s1 p1 q pr d).total = q * pr - d ∧
      (insertSaleItemRow s1 p1 q pr d).total =
        (insertSaleItemRow s2 p2 q pr d).total :=
  ⟨rfl, rfl⟩

/-- A line of the proposed sale as assembled by the POS cart: product,
quantity, unit price and line discount. -/
structure CartLine where
  product_id : Nat
  quantity : Int
  price : ℚ
  discount : ℚ

/-- Modelled from the spec: the POS checkout code that computes and
persists a sale is not under src (only the schema is).  Per the spec, the
subtotal is the sum of the line totals; it is accumulated over the cart
lines in exact decimal (rational) arithmetic. -/
def checkoutSubtotal (lines : List CartLine) : ℚ :=
  lines.foldl (fun acc l => acc + sale_item_total l.quantity l.price l.discount) 0

/-- A row of `public.sales` (initial_schema.sql lines 144-156): the
monetary columns subtotal, discount, tax, total. -/
structure PersistedSale where
  subtotal : ℚ
  discount : ℚ
  tax : ℚ
  total : ℚ
deriving DecidableEq

/-- Modelled from the spec: persisting a checkout (the missing POS page
logic) creates the sale row with total = subtotal + tax − order-level
discount, and one generated-column `sale_items` row per cart line. -/
def checkoutPersist (saleId : Nat) (lines : List CartLine) (tax discount : ℚ) :
    PersistedSale × List SaleItemStored :=
  ({ subtotal := checkoutSubtotal lines
     discount := discount
     tax := tax
     total := checkoutSubtotal lines + tax - discount },
   lines.map fun l =>
     insertSaleItemRow saleId l.product_id l.quantity l.price l.discount)

/-- The accumulating checkout fold computes the sum of the line totals. -/
theorem checkoutSubtotal_eq_sum_aux (a : ℚ) (lines : List CartLine) :
    lines.foldl (fun acc l => acc + sale_item_total l.quantity l.price l.discount) a =
      a + (lines.map fun l => sale_item_total l.quantity l.price l.discount).sum := by
  induction lines generalizing a with
  | nil => simp
  | cons l rest ih => simp [ih, add_assoc]

/-- C4: the persisted sale's total equals the sum of its persisted items'
stored totals plus tax minus the order-level discount, each stored item
total being quantity × price − discount, all in exact rational
arithmetic. -/
theorem C4_sale_total_formula (saleId : Nat) (lines : List CartLine)
    (tax discount : ℚ) :
    (checkoutPersist saleId lines tax discount).1.total =
      ((checkoutPersist saleId lines tax discount).2.map fun r => r.total).sum
        + tax - discount ∧
      ∀ r ∈ (checkoutPersist saleId lines tax discount).2,
        r.total = r.quantity * r.price - r.discount := by
  constructor
  · show checkoutSubtotal lines + tax - discount = _
    rw [checkoutSubtotal, checkoutSubtotal_eq_sum_aux]
    simp only [checkoutPersist, List.map_map, zero_add]
    rfl
  · intro r hr
    simp only [checkoutPersist, List.mem_map] at hr
    obtain ⟨l, _, rfl⟩ := hr
    rfl

/-- Witness for C4: a one-line cart (quantity 2, price 3, discount 1)
with tax 1 and order discount 2. -/
theorem C4_sale_total_formula_witness :
    (checkoutPersist 1 [⟨10, 2, 3, 1⟩] 1 2).1.total =
      ((checkoutPersist 1 [⟨10, 2, 3, 1⟩] 1 2).2.map fun r => r.total).sum
        + 1 - 2 ∧
      (insertSaleItemRow 1 10 2 3 1).total =
        (insertSaleItemRow 1 10 2 3 1).quantity *
          (insertSaleItemRow 1 10 2 3 1).price -
          (insertSaleItemRow 1 10 2 3 1).discount :=
  ⟨(C4_sale_total_formula 1 [⟨10, 2, 3, 1⟩] 1 2).1,
   (C4_sale_total_formula 1 [⟨10, 2, 3, 1⟩] 1 2).2
     (insertSaleItemRow 1 10 2 3 1) (by simp [checkoutPersist])⟩

/-- The `purchase_order_status` enum (part_003 line 40); equally the CHECK
constraint on `purchase_orders.status` in initial_schema.sql line 124.
Every stored status is one of these four values by construction. -/
inductive POStatus
  | Pending
  | Sent
  | Received
  | Cancelled
deriving DecidableEq, Fintype

/-- Position of a status in the forward order Pending → Sent →
Received/Cancelled described by the spec. -/
def poRank : POStatus → Nat
  | .Pending => 0
  | .Sent => 1
  | .Received => 2
  | .Cancelled => 2

/-- Whether a status is terminal (Received or Cancelled). -/
def poTerminal : POStatus → Bool
  | .Received => true
  | .Cancelled => true
  | _ => false

/-- Modelled from the spec: the purchase-orders screen that performs
status updates is not under src (the schema only constrains the value
set).  The spec states a PurchaseOrder transitions only forward through
Pending, Sent, Received/Cancelled, with Received/Cancelled terminal: a
requested update is applied only when the current status is not terminal
and the request moves strictly forward; otherwise the stored status is
unchanged. -/
def poApplyUpdate (s req : POStatus) : POStatus :=
  if poTerminal s then s
  else if poRank s < poRank req then req
  else s

/-- Running a sequence of requested status updates from a status. -/
def poRun (s : POStatus) (reqs : List POStatus) : POStatus :=
  reqs.foldl poApplyUpdate s

/-- A single update never moves the status backward. -/
theorem poRank_le_applyUpdate (s req : POStatus) :
    poRank s ≤ poRank (poApplyUpdate s req) := by
  cases s <;> cases req <;> decide

/-- A terminal status absorbs every requested update. -/
theorem poApplyUpdate_of_terminal (s req : POStatus)
    (h : poTerminal s = true) : poApplyUpdate s req = s := by
  simp [poApplyUpdate, h]

/-- C6: under every sequence of requested status updates the stored
status (always one of the four enum values, by construction) never moves
backward in the order Pending → Sent → Received/Cancelled, and once the
status is Received or Cancelled it never changes again. -/
theorem C6_po_status_forward_terminal (s : POStatus) (reqs : List POStatus) :
    poRank s ≤ poRank (poRun s reqs) ∧
      (poTerminal s = true → poRun s reqs = s) := by
  induction reqs generalizing s with
  | nil => exact ⟨le_refl _, fun _ => rfl⟩
  | cons r rest ih =>
      constructor
      · exact le_trans (poRank_le_applyUpdate s r)
          (ih (poApplyUpdate s r)).1
      · intro h
        show poRun (poApplyUpdate s r) rest = s
        rw [poApplyUpdate_of_terminal s r h]
        exact (ih s).2 h

/-- Witness for C6: a Received order stays Received when a Pending update
is requested. -/
theorem C6_po_status_witness :
    poRun POStatus.Received [POStatus.Pending] = POStatus.Received :=
  (C6_po_status_forward_terminal POStatus.Received [POStatus.Pending]).2
    (by decide)

end BeePharma

namespace BeePharma

/-- A newly inserted `auth.users` row as seen by the signup trigger: the
service-assigned id, the email, and the user-supplied
`raw_user_meta_data` (embedded as string key-value pairs). -/
structure AuthUser where
  id : Nat
  email : String
  raw_user_meta_data : List (String × String)

/-- The JSON `->>` extraction used by `handle_new_user` on the signup
metadata. -/
def metaGet (m : List (String × String)) (k : String) : Option String :=
  (m.find? fun kv => kv.1 == k).map fun kv => kv.2

/-- A row of `public.profiles` (part_003 lines 52-59). -/
structure ProfileRow where
  id : Nat
  full_name : Option String
  avatar_url : Option String
  role : UserRole
deriving DecidableEq

/-- The trigger function `handle_new_user` (part_003 lines 197-212), fired
AFTER INSERT ON auth.users FOR EACH ROW: it inserts exactly one
`profiles` row carrying the new user's id, the full_name and avatar_url
extracted from the signup metadata, and the hard-coded literal role
`Cashier`. -/
def handle_new_user (u : AuthUser) (profiles : List ProfileRow) :
    List ProfileRow :=
  profiles ++
    [{ id := u.id
       full_name := metaGet u.raw_user_meta_data "full_name"
       avatar_url := metaGet u.raw_user_meta_data "avatar_url"
       role := UserRole.Cashier }]

/-- The signup form fields of `handleSignUp` (part_001 lines 134-159). -/
structure SignUpForm where
  email : String
  password : String
  confirmPassword : String

/-- `handleSignUp` (part_001 lines 134-159): client-side check that the
two password fields match, then `supabase.auth.signUp` with email and
password only (the options carry an emailRedirectTo and no role or
metadata).  On success the identity service inserts the `auth.users` row
with a fresh id and empty metadata, which fires `handle_new_user`. -/
def handleSignUp (f : SignUpForm) (freshId : Nat)
    (profiles : List ProfileRow) : Option (AuthUser × List ProfileRow) :=
  if f.password = f.confirmPassword then
    let u : AuthUser := { id := freshId, email := f.email,
                          raw_user_meta_data := [] }
    some (u, handle_new_user u profiles)
  else none

/-- C7: for every new auth principal (any email and any user-supplied
metadata, including a metadata entry claiming a role) whose id is not yet
in the profiles table, the signup trigger creates exactly one linked
profile row, and every profile row linked to the new principal has role
Cashier — never Super Admin — independently of the signup inputs. -/
theorem C7_signup_creates_cashier_profile (u : AuthUser)
    (profiles : List ProfileRow)
    (hfresh : ∀ p ∈ profiles, p.id ≠ u.id) :
    ((handle_new_user u profiles).filter fun p => p.id == u.id).length = 1 ∧
      ∀ p ∈ handle_new_user u profiles, p.id = u.id →
        p.role = UserRole.Cashier ∧ p.role ≠ UserRole.SuperAdmin := by
  constructor
  · have hnil : profiles.filter (fun p => p.id == u.id) = [] := by
      rw [List.filter_eq_nil_iff]
      intro p hp
      simpa using hfresh p hp
    simp [handle_new_user, List.filter_append, hnil]
  · intro p hp hid
    rcases List.mem_append.mp hp with h | h
    · exact absurd hid (hfresh p h)
    · have hp2 := List.mem_singleton.mp h
      subst hp2
      exact ⟨rfl, by simp⟩

/-- A signup request whose metadata tries to claim the Super Admin role:
used to witness C7. -/
def signupAttacker : AuthUser :=
  { id := 7
    email := "eve@pharm.example"
    raw_user_meta_data := [("role", "Super Admin")] }

/-- Witness for C7: the malicious metadata signup still yields exactly one
profile, with role Cashier. -/
theorem C7_signup_creates_cashier_profile_witness :
    ((handle_new_user signupAttacker []).filter
        fun p => p.id == signupAttacker.id).length = 1 ∧
      ∀ p ∈ handle_new_user signupAttacker [], p.id = signupAttacker.id →
        p.role = UserRole.Cashier ∧ p.role ≠ UserRole.SuperAdmin :=
  C7_signup_creates_cashier_profile signupAttacker [] (by simp)

/-- A navigation item as defined in Sidebar.tsx and BottomNav.tsx: target
route, label, and the role names allowed to see it.  The source field `to`
is a reserved word in Lean and is embedded as `toRoute`. -/
structure NavItem where
  toRoute : String
  label : String
  roles : List String

/-- The role name strings used by the navigation components. -/
def roleLabel : UserRole → String
  | .SuperAdmin => "Super Admin"
  | .StockManager => "Stock Manager"
  | .Cashier => "Cashier"

/-- The `navItems` array of Sidebar.tsx (lines 18-29). -/
def sidebarNavItems : List NavItem :=
  [{ toRoute := "/", label := "Dashboard",
     roles := ["Super Admin", "Stock Manager", "Cashier"] },
   { toRoute := "/pos", label := "POS", roles := ["Super Admin", "Cashier"] },
   { toRoute := "/sales", label := "Sales History",
     roles := ["Super Admin", "Stock Manager", "Cashier"] },
   { toRoute := "/inventory", label := "Inventory",
     roles := ["Super Admin", "Stock Manager", "Cashier"] },
   { toRoute := "/products", label := "Products",
     roles := ["Super Admin", "Stock Manager"] },
   { toRoute := "/categories", label := "Categories",
     roles := ["Super Admin", "Stock Manager"] },
   { toRoute := "/suppliers", label := "Suppliers",
     roles := ["Super Admin", "Stock Manager"] },
   { toRoute := "/purchase-orders", label := "Purchase Orders",
     roles := ["Super Admin", "Stock Manager"] },
   { toRoute := "/users", label := "Users", roles := ["Super Admin"] },
   { toRoute := "/settings", label := "Settings", roles := ["Super Admin"] }]

/-- The `navItems` array of BottomNav.tsx (lines 12-20). -/
def bottomNavItems : List NavItem :=
  [{ toRoute := "/", label := "Dashboard",
     roles := ["Super Admin", "Stock Manager", "Cashier"] },
   { toRoute := "/pos", label := "POS", roles := ["Super Admin", "Cashier"] },
   { toRoute := "/inventory", label := "Inventory",
     roles := ["Super Admin", "Stock Manager", "Cashier"] },
   { toRoute := "/settings", label := "More",
     roles := ["Super Admin", "Stock Manager", "Cashier"] }]

/-- The routes a navigation component shows to a role: the items whose
role list includes the role (`item.roles.includes(role)` in both
components), mapped to their targets. -/
def visibleRoutes (items : List NavItem) (r : UserRole) : List String :=
  (items.filter fun i => i.roles.contains (roleLabel r)).map fun i => i.toRoute

/-- C9: the desktop Sidebar and the mobile BottomNav disagree on the
permitted-route set per role: the Sidebar shows /settings and /users only
to Super Admin, while the BottomNav shows /settings (the More link) to
every role, so for Cashier and Stock Manager the two computed route sets
differ. -/
theorem C9_sidebar_bottomnav_disagree :
    ("/settings" ∈ visibleRoutes bottomNavItems UserRole.Cashier ∧
       "/settings" ∉ visibleRoutes sidebarNavItems UserRole.Cashier) ∧
      ("/settings" ∈ visibleRoutes bottomNavItems UserRole.StockManager ∧
       "/settings" ∉ visibleRoutes sidebarNavItems UserRole.StockManager) ∧
      visibleRoutes sidebarNavItems UserRole.Cashier ≠
        visibleRoutes bottomNavItems UserRole.Cashier ∧
      visibleRoutes sidebarNavItems UserRole.StockManager ≠
        visibleRoutes bottomNavItems UserRole.StockManager ∧
      (∀ r : UserRole,
        ("/settings" ∈ visibleRoutes sidebarNavItems r ↔ r = UserRole.SuperAdmin) ∧
        ("/users" ∈ visibleRoutes sidebarNavItems r ↔ r = UserRole.SuperAdmin)) := by
  decide

end BeePharma

namespace BeePharma

/-- An authenticated session as held by the auth context
(AuthContext.tsx): present or absent. -/
structure Session where
  userId : Nat
deriving DecidableEq

/-- The three possible renders of `ProtectedRoute` (App.tsx lines 24-41):
the loading spinner, the `Navigate to=/login` redirect, or the protected
`MainLayout`. -/
inductive ProtectedOutcome
  | loadingScreen
  | redirectToLogin
  | layout
deriving DecidableEq

/-- `ProtectedRoute` (App.tsx lines 24-41): while loading, the spinner;
with no session, a redirect to /login; otherwise the protected layout. -/
def protectedRouteOutcome (loading : Bool) (session : Option Session) :
    ProtectedOutcome :=
  if loading then ProtectedOutcome.loadingScreen
  else if session.isNone then ProtectedOutcome.redirectToLogin
  else ProtectedOutcome.layout

/-- What the router renders for a request: a public page, one of the
redirects, the loading screen, or a protected screen inside the layout. -/
inductive Rendered
  | loadingScreen
  | redirectToLogin
  | redirectToRoot
  | publicPage (path : String)
  | protectedPage (path : String)
deriving DecidableEq

/-- The paths nested under `ProtectedRoute` in `AppRoutes` (App.tsx lines
53-65). -/
def protectedPaths : List String :=
  ["/", "/pos", "/sales", "/inventory", "/products", "/categories",
   "/suppliers", "/purchase-orders", "/users", "/settings"]

/-- `AppRoutes` (App.tsx lines 43-68): /login, /signup and
/forgot-password render their pages (or redirect to / when a session
exists); /reset-password always renders; every other path is nested under
`ProtectedRoute`, whose outcome gates the protected screens, with the
wildcard redirecting to /. -/
def appRender (loading : Bool) (session : Option Session) (path : String) :
    Rendered :=
  if path = "/login" ∨ path = "/signup" ∨ path = "/forgot-password" then
    if session.isSome then Rendered.redirectToRoot else Rendered.publicPage path
  else if path = "/reset-password" then Rendered.publicPage path
  else
    match protectedRouteOutcome loading session with
    | ProtectedOutcome.loadingScreen => Rendered.loadingScreen
    | ProtectedOutcome.redirectToLogin => Rendered.redirectToLogin
    | ProtectedOutcome.layout =>
        if protectedPaths.contains path then Rendered.protectedPage path
        else Rendered.redirectToRoot

/-- C10: with loading finished and no session, every protected path
renders the redirect to /login, and no path whatsoever renders a
protected screen: no protected screen is ever shown without an
authenticated session. -/
theorem C10_unauthenticated_never_sees_protected (path : String) :
    (path ∈ protectedPaths →
      appRender false none path = Rendered.redirectToLogin) ∧
      ∀ q : String, appRender false none path ≠ Rendered.protectedPage q := by
  constructor
  · intro h
    fin_cases h <;> decide
  · intro q
    by_cases h1 : path = "/login" ∨ path = "/signup" ∨ path = "/forgot-password"
    · unfold appRender
      rw [if_pos h1]
      simp
    · by_cases h2 : path = "/reset-password"
      · unfold appRender
        rw [if_neg h1, if_pos h2]
        simp
      · unfold appRender
        rw [if_neg h1, if_neg h2]
        simp [protectedRouteOutcome]

/-- Witness for C10: the point-of-sale path with no session redirects to
/login and is not the POS screen. -/
theorem C10_unauthenticated_witness :
    appRender false none "/pos" = Rendered.redirectToLogin ∧
      appRender false none "/pos" ≠ Rendered.protectedPage "/pos" :=
  ⟨(C10_unauthenticated_never_sees_protected "/pos").1 (by decide),
   (C10_unauthenticated_never_sees_protected "/pos").2 "/pos"⟩

end BeePharma
